import Mathlib

/-!
Shallow embedding of the matchmaking, skill-rating and stats-consistency
subsystem of the tictactoe repository, together with theorems settling the
specification claims about it.

Sources embedded:
* `app/services/matchmaking_service.py` — preferences, compatibility scorer,
  queue join, candidate fetch, search-radius expansion, match creation;
* `app/services/skill_calculator.py` — ELO rating update;
* `app/services/consistency_manager.py` — integrity checks.

Machine integers are modelled as `Int` (Python integers are unbounded),
Python floats as exact real/rational arithmetic, SQL rows as Lean
structures, tables as lists of rows, and fallible code as `Option`.
-/

namespace TicTacToe

/-- Embeds the `MatchmakingPreferences` dataclass of
`matchmaking_service.py`: acceptable grid sizes, maximum rating
difference, queue type and maximum wait time. -/
structure MatchmakingPreferences where
  grid_sizes : List Int
  max_rating_difference : Int
  preferred_queue_type : String
  max_wait_time : Int
deriving DecidableEq, Repr

/-- Embeds `set(prefs1.grid_sizes) & set(prefs2.grid_sizes)` being nonempty:
some grid size occurs in both preference lists. -/
def hasCommonGridSizes (l1 l2 : List Int) : Bool :=
  l1.any (fun g => l2.contains g)

/-- Embeds `MatchmakingService._calculate_match_compatibility`
(`matchmaking_service.py` lines 243-276).  Weighted sum of a grid-size
term (0.40), a rating term (0.35), a queue-type term (0.15) and a
wait-time term (0.10).  The Python code divides `rating_diff` by
`min(prefs1.max_rating_difference, prefs2.max_rating_difference)`; when
that divisor is zero the division raises `ZeroDivisionError`, which is
modelled by returning `none`. -/
def calculate_match_compatibility
    (prefs1 prefs2 : MatchmakingPreferences) (rating1 rating2 : Int) :
    Option ℚ :=
  let gridScore : ℚ :=
    if hasCommonGridSizes prefs1.grid_sizes prefs2.grid_sizes then 2/5 else 0
  let rating_diff : Int := |rating1 - rating2|
  let max_acceptable_diff : Int :=
    min prefs1.max_rating_difference prefs2.max_rating_difference
  let queueScore : ℚ :=
    if prefs1.preferred_queue_type = prefs2.preferred_queue_type
    then 3/20 else 0
  let waitScore : ℚ :=
    if |prefs1.max_wait_time - prefs2.max_wait_time| ≤ 60 then 1/10 else 0
  if rating_diff ≤ max_acceptable_diff then
    if max_acceptable_diff = 0 then
      none
    else
      let rating_score : ℚ := 1 - (rating_diff : ℚ) / (max_acceptable_diff : ℚ)
      some (gridScore + 7/20 * rating_score + queueScore + waitScore)
  else
    some (gridScore + queueScore + waitScore)

lemma hasCommonGridSizes_comm (l1 l2 : List Int) :
    hasCommonGridSizes l1 l2 = hasCommonGridSizes l2 l1 := by
  simp only [hasCommonGridSizes]
  rcases h1 : l1.any (fun g => l2.contains g) with _ | _ <;>
    rcases h2 : l2.any (fun g => l1.contains g) with _ | _ <;> try rfl
  · exfalso
    simp only [List.any_eq_false, List.any_eq_true, List.contains,
      List.elem_eq_mem, decide_eq_true_eq] at h1 h2
    obtain ⟨x, hx1, hx2⟩ := h2
    exact h1 x hx2 hx1
  · exfalso
    simp only [List.any_eq_false, List.any_eq_true, List.contains,
      List.elem_eq_mem, decide_eq_true_eq] at h1 h2
    obtain ⟨x, hx1, hx2⟩ := h1
    exact h2 x hx2 hx1

/-- Embeds the `MatchmakingStatus` enum of `app/models/matchmaking.py`. -/
inductive MatchmakingStatus where
  | searching
  | matched
  | cancelled
  | timeout_
deriving DecidableEq, Repr

/-- Embeds a `PlayerQueue` row of `app/models/matchmaking.py`.  Timestamps
are modelled as integer clock readings (seconds); nullable columns as
`Option`. -/
structure PlayerQueue where
  id : Int
  player_id : Int
  preferences : MatchmakingPreferences
  skill_rating : Int
  queue_type : String
  status : MatchmakingStatus
  joined_at : Int
  search_expanded_at : Option Int
  matched_at : Option Int
  initial_rating_range : Int
  current_rating_range : Int
  max_wait_time : Int
deriving DecidableEq, Repr

/-- Embeds a `PlayerRating` row of `app/models/matchmaking.py` (the fields
read and written by `skill_calculator.py`).  The deviation, a Python
float, is modelled as a rational. -/
structure PlayerRating where
  player_id : Int
  overall_rating : Int
  grid_3x3_rating : Int
  grid_4x4_rating : Int
  grid_5x5_rating : Int
  games_played : Int
  rating_deviation : ℚ
  last_game_at : Option Int
  peak_rating : Int
  peak_rating_at : Option Int
  current_win_streak : Int
  current_loss_streak : Int
  best_win_streak : Int
deriving DecidableEq, Repr

/-- The filter of the `db.query(PlayerQueue)` in
`MatchmakingService.join_matchmaking`: an entry of the given player whose
status is `SEARCHING`. -/
def isSearchingEntryOf (pid : Int) (e : PlayerQueue) : Bool :=
  e.player_id == pid && e.status == MatchmakingStatus.searching

/-- Embeds `MatchmakingService.join_matchmaking`
(`matchmaking_service.py` lines 69-111) on a queue table modelled as a
list of rows (`.first()` returns the first matching row).  If the player
already has a `SEARCHING` entry it is returned unchanged and no row is
added; otherwise a new entry is created from the preferences and the
player's rating and appended to the table.  `now` is the clock reading
and `newId` the primary key the database would assign. -/
def join_matchmaking (queue : List PlayerQueue) (player_id : Int)
    (preferences : MatchmakingPreferences) (rating : Int)
    (now newId : Int) : PlayerQueue × List PlayerQueue :=
  match queue.find? (isSearchingEntryOf player_id) with
  | some existing_queue => (existing_queue, queue)
  | none =>
      let queue_entry : PlayerQueue :=
        { id := newId
          player_id := player_id
          preferences := preferences
          skill_rating := rating
          queue_type := preferences.preferred_queue_type
          status := MatchmakingStatus.searching
          joined_at := now
          search_expanded_at := none
          matched_at := none
          initial_rating_range := preferences.max_rating_difference
          current_rating_range := preferences.max_rating_difference
          max_wait_time := preferences.max_wait_time }
      (queue_entry, queue ++ [queue_entry])

/-- The `WHERE` clause of the candidate query in
`MatchmakingService._find_match` (`matchmaking_service.py` lines
176-185): a different entry, still `SEARCHING`, of the same queue type,
whose rating lies within the searcher's current rating range
(`between` is inclusive on both ends). -/
def isCandidateFor (q : PlayerQueue) (e : PlayerQueue) : Bool :=
  e.id != q.id &&
  e.status == MatchmakingStatus.searching &&
  e.queue_type == q.queue_type &&
  q.skill_rating - q.current_rating_range ≤ e.skill_rating &&
  e.skill_rating ≤ q.skill_rating + q.current_rating_range

/-- The `ORDER BY` key of the candidate query:
`abs(PlayerQueue.skill_rating - queue_entry.skill_rating)`. -/
def ratingDistance (q : PlayerQueue) (e : PlayerQueue) : Int :=
  |e.skill_rating - q.skill_rating|

/-- Embeds the candidate fetch of `MatchmakingService._find_match`
relationally, with the SQL semantics of
`SELECT ... WHERE ... ORDER BY key LIMIT 10`: the result is the first 10
rows of some permutation of the filtered table that is sorted by the
order key.  SQL fixes nothing beyond the order key, so rows with equal
keys may come in any order. -/
def findMatchCandidates (queue : List PlayerQueue) (q : PlayerQueue)
    (result : List PlayerQueue) : Prop :=
  ∃ sorted : List PlayerQueue,
    sorted.Perm (queue.filter (isCandidateFor q)) ∧
    sorted.Chain' (fun a b => ratingDistance q a ≤ ratingDistance q b) ∧
    result = sorted.take 10

/-- Embeds `MatchmakingService._maybe_expand_search_criteria`
(`matchmaking_service.py` lines 355-375).  `now` is the clock reading;
the wait time is `now` minus the join time.  Expansion happens when the
wait is at least 30 seconds, the current range is still below three times
the initial range, and either no expansion was recorded yet or the last
one is at least 30 seconds old; it raises the current range by 50, capped
at three times the initial range, and records the expansion time. -/
def maybe_expand_search_criteria (now : Int) (q : PlayerQueue) :
    PlayerQueue :=
  let wait_time := now - q.joined_at
  if 30 ≤ wait_time ∧ q.current_rating_range < q.initial_rating_range * 3 then
    if (match q.search_expanded_at with
        | none => true
        | some t => decide (30 ≤ now - t)) then
      { q with
          current_rating_range :=
            min (q.current_rating_range + 50) (q.initial_rating_range * 3)
          search_expanded_at := some now }
    else q
  else q

/-- Embeds Python `int(x)` applied to a float: truncation toward zero. -/
noncomputable def pyint (x : ℝ) : Int :=
  if 0 ≤ x then ⌊x⌋ else ⌈x⌉

/-- Embeds `SkillCalculator._expected_score`
(`skill_calculator.py` lines 80-82):
`1.0 / (1.0 + math.pow(10, (rating_b - rating_a) / 400.0))`. -/
noncomputable def expected_score (rating_a rating_b : Int) : ℝ :=
  1 / (1 + (10 : ℝ) ^ (((rating_b - rating_a : Int) : ℝ) / 400))

/-- Embeds `SkillCalculator._get_k_factor`
(`skill_calculator.py` lines 84-91). -/
def get_k_factor (games_played : Int) : Int :=
  if games_played < 20 then 40
  else if games_played < 100 then 20
  else 10

/-- Embeds `SkillCalculator._get_grid_size_modifier`
(`skill_calculator.py` lines 93-103), as an exact rational. -/
def get_grid_size_modifier (grid_size : Int) : ℚ :=
  if grid_size = 3 then 4/5
  else if grid_size = 4 then 1
  else if 5 ≤ grid_size then 6/5
  else 4/5

/-- Embeds `SkillCalculator.calculate_rating_change`
(`skill_calculator.py` lines 30-78).  Returns the pair
`(new_winner_rating, new_loser_rating)`: the raw change is
`K * grid_modifier * (actual - expected)`, clamped to `[-50, 50]`, added
to the old rating, truncated by `int(...)` and floored at 100. -/
noncomputable def calculate_rating_change
    (winner_rating loser_rating winner_games loser_games grid_size : Int) :
    Int × Int :=
  let winner_expected : ℝ := expected_score winner_rating loser_rating
  let loser_expected : ℝ := 1 - winner_expected
  let winner_k : Int := get_k_factor winner_games
  let loser_k : Int := get_k_factor loser_games
  let grid_modifier : ℝ := (get_grid_size_modifier grid_size : ℚ)
  let winner_change : ℝ :=
    max (-(50 : ℝ)) (min 50 ((winner_k : ℝ) * grid_modifier * (1 - winner_expected)))
  let loser_change : ℝ :=
    max (-(50 : ℝ)) (min 50 ((loser_k : ℝ) * grid_modifier * (0 - loser_expected)))
  let new_winner_rating : Int := pyint ((winner_rating : ℝ) + winner_change)
  let new_loser_rating : Int := pyint ((loser_rating : ℝ) + loser_change)
  (max 100 new_winner_rating, max 100 new_loser_rating)

/-- Embeds `SkillCalculator._update_rating_record`
(`skill_calculator.py` lines 171-217) on a `PlayerRating` row; `now` is
the clock reading used for the timestamps.  The grid-specific rating of
the played grid size moves by the overall rating change, floored at 100;
games played, deviation (times 0.99, floored at 50), peak rating and
streaks are updated as in the source. -/
def update_rating_record (rating : PlayerRating)
    (new_overall_rating grid_size : Int) (won : Bool) (now : Int) :
    PlayerRating :=
  let old_rating := rating.overall_rating
  let rating_change := new_overall_rating - old_rating
  let r1 :=
    { rating with
        overall_rating := new_overall_rating
        grid_3x3_rating :=
          if grid_size = 3 then
            max 100 (rating.grid_3x3_rating + rating_change)
          else rating.grid_3x3_rating
        grid_4x4_rating :=
          if grid_size = 4 then
            max 100 (rating.grid_4x4_rating + rating_change)
          else rating.grid_4x4_rating
        grid_5x5_rating :=
          if grid_size = 5 then
            max 100 (rating.grid_5x5_rating + rating_change)
          else rating.grid_5x5_rating }
  let r2 :=
    { r1 with
        games_played := r1.games_played + 1
        rating_deviation := max 50 (r1.rating_deviation * (99/100)) }
  let r3 :=
    if new_overall_rating > r2.peak_rating then
      { r2 with
          peak_rating := new_overall_rating
          peak_rating_at := some now }
    else r2
  let r4 :=
    if won then
      { r3 with
          current_win_streak := r3.current_win_streak + 1
          current_loss_streak := 0
          best_win_streak := max r3.best_win_streak (r3.current_win_streak + 1) }
    else
      { r3 with
          current_loss_streak := r3.current_loss_streak + 1
          current_win_streak := 0 }
  { r4 with last_game_at := some now }

/-- Embeds a `Game` row of `app/models/game.py` (the columns the
consistency checks read). -/
structure Game where
  id : Int
  status : String
  winner_id : Option Int
  grid_size : Int
deriving DecidableEq, Repr

/-- Embeds a `Move` row of `app/models/move.py` (the columns the
consistency checks read). -/
structure Move where
  id : Int
  game_id : Int
  player_id : Int
deriving DecidableEq, Repr

/-- Embeds a `Player` row of `app/models/player.py` (the columns the
consistency checks read); `efficiency` is a nullable float column,
modelled as `Option ℚ`. -/
structure Player where
  id : Int
  efficiency : Option ℚ
  total_wins : Int
deriving DecidableEq, Repr

/-- Embeds a `GamePlayer` row of `app/models/game_player.py`. -/
structure GamePlayer where
  game_id : Int
  player_id : Int
deriving DecidableEq, Repr

/-- The database state read by `ConsistencyManager`: one list of rows per
table. -/
structure ConsistencyDB where
  players : List Player
  games : List Game
  moves : List Move
  game_players : List GamePlayer
deriving DecidableEq, Repr

/-- A violation descriptor from `_check_orphaned_moves`:
`{move_id, game_id, player_id}`. -/
structure OrphanedMoveIssue where
  move_id : Int
  game_id : Int
  player_id : Int
deriving DecidableEq, Repr

/-- A violation descriptor from `_check_invalid_game_states`:
`{game_id, move_count}` (the `issue` string is the same for all). -/
structure InvalidGameStateIssue where
  game_id : Int
  move_count : Int
deriving DecidableEq, Repr

/-- A violation descriptor from `_check_efficiency_mismatches`. -/
structure EfficiencyMismatchIssue where
  player_id : Int
  stored_efficiency : ℚ
  actual_efficiency : ℚ
  stored_wins : Int
  actual_wins : Int
deriving DecidableEq, Repr

/-- A violation descriptor from `_check_missing_game_players`:
`{game_id, players_with_moves, registered_players}`. -/
structure MissingGamePlayersIssue where
  game_id : Int
  players_with_moves : Int
  registered_players : Int
deriving DecidableEq, Repr

/-- Embeds `ConsistencyManager._check_orphaned_moves`
(`consistency_manager.py` lines 136-154), in state-passing style: moves
whose game id or player id matches no row of the respective table.  The
method only issues `SELECT` queries, so the returned database is the
input one. -/
def check_orphaned_moves (db : ConsistencyDB) :
    ConsistencyDB × List OrphanedMoveIssue :=
  let orphaned := db.moves.filter (fun m =>
    !(db.games.any (fun g => g.id == m.game_id)) ||
    !(db.players.any (fun p => p.id == m.player_id)))
  (db, orphaned.map (fun m =>
    { move_id := m.id, game_id := m.game_id, player_id := m.player_id }))

/-- The number of moves recorded for a game:
`db.query(func.count(Move.id)).filter(Move.game_id == game_id)`. -/
def moveCount (moves : List Move) (game_id : Int) : Int :=
  (moves.filter (fun m => m.game_id == game_id)).length

/-- Embeds `ConsistencyManager._check_invalid_game_states`
(`consistency_manager.py` lines 156-181), in state-passing style: games
with `status == "completed"` and no winner are flagged when their move
count is below the hard-coded constant 9. -/
def check_invalid_game_states (db : ConsistencyDB) :
    ConsistencyDB × List InvalidGameStateIssue :=
  let invalid_games := db.games.filter (fun g =>
    g.status == "completed" && g.winner_id == none)
  (db, invalid_games.filterMap (fun g =>
    let move_count := moveCount db.moves g.id
    if move_count < 9 then
      some { game_id := g.id, move_count := move_count }
    else none))

/-- Embeds `ConsistencyManager._calculate_actual_efficiency`
(`consistency_manager.py` lines 219-242): for each game won by the
player, the inner join with that player's moves in it keeps the game only
when at least one such move exists; returns `(wins, total moves,
moves per win)` or `none` when no game survives the join. -/
def calculate_actual_efficiency (db : ConsistencyDB) (player_id : Int) :
    Option (Int × Int × ℚ) :=
  let wins_data := (db.games.filter (fun g =>
      g.winner_id == some player_id)).filterMap (fun g =>
    let c := (db.moves.filter (fun m =>
      m.game_id == g.id && m.player_id == player_id)).length
    if 0 < c then some ((c : Int)) else none)
  if wins_data.isEmpty then none
  else
    let total_wins : Int := wins_data.length
    let total_moves : Int := wins_data.sum
    some (total_wins, total_moves, (total_moves : ℚ) / (total_wins : ℚ))

/-- Embeds `ConsistencyManager._check_efficiency_mismatches`
(`consistency_manager.py` lines 183-217), in state-passing style: over
the first `sample_size` players with a stored efficiency and a positive
win count, flags those whose stored efficiency differs from the
recomputed one by more than 0.1 or whose stored win count differs. -/
def check_efficiency_mismatches (db : ConsistencyDB)
    (sample_size : Nat) :
    ConsistencyDB × List EfficiencyMismatchIssue :=
  let sample := (db.players.filter (fun p =>
    p.efficiency != none && 0 < p.total_wins)).take sample_size
  (db, sample.filterMap (fun p =>
    match p.efficiency, calculate_actual_efficiency db p.id with
    | some stored_efficiency, some (actual_wins, _, actual_efficiency) =>
        if 1/10 < |stored_efficiency - actual_efficiency| ∨
           p.total_wins ≠ actual_wins then
          some { player_id := p.id
                 stored_efficiency := stored_efficiency
                 actual_efficiency := actual_efficiency
                 stored_wins := p.total_wins
                 actual_wins := actual_wins }
        else none
    | _, _ => none))

/-- Embeds `ConsistencyManager._check_missing_game_players`
(`consistency_manager.py` lines 244-281), in state-passing style: for
each game that has moves, compares the number of distinct players with
moves in it against the number of registered `GamePlayer` rows. -/
def check_missing_game_players (db : ConsistencyDB) :
    ConsistencyDB × List MissingGamePlayersIssue :=
  let game_ids := (db.moves.map (fun m => m.game_id)).dedup
  (db, game_ids.filterMap (fun gid =>
    let unique_players : Int :=
      (((db.moves.filter (fun m => m.game_id == gid)).map
        (fun m => m.player_id)).dedup).length
    let registered : Int :=
      (db.game_players.filter (fun gp => gp.game_id == gid)).length
    if unique_players ≠ registered then
      some { game_id := gid
             players_with_moves := unique_players
             registered_players := registered }
    else none))

/-- The report returned by `validate_data_integrity`: the four lists of
violation descriptors. -/
structure IntegrityReport where
  orphaned_moves : List OrphanedMoveIssue
  invalid_game_states : List InvalidGameStateIssue
  efficiency_mismatches : List EfficiencyMismatchIssue
  missing_game_players : List MissingGamePlayersIssue
deriving DecidableEq, Repr

/-- Embeds `ConsistencyManager.validate_data_integrity`
(`consistency_manager.py` lines 115-134), sequencing the four integrity
checks and threading the database state through them. -/
def validate_data_integrity (db : ConsistencyDB) :
    ConsistencyDB × IntegrityReport :=
  let (db1, orphaned_moves) := check_orphaned_moves db
  let (db2, invalid_game_states) := check_invalid_game_states db1
  let (db3, efficiency_mismatches) := check_efficiency_mismatches db2 100
  let (db4, missing_game_players) := check_missing_game_players db3
  (db4,
    { orphaned_moves := orphaned_moves
      invalid_game_states := invalid_game_states
      efficiency_mismatches := efficiency_mismatches
      missing_game_players := missing_game_players })

/-- Phase of one search process attempting to claim a pair of queue
entries, following the code path of `_continuous_matchmaking_search` /
`_find_match` / `_create_match`: it first observes the statuses through
the candidate query, then — with no re-read, lock or compare-and-swap in
`_create_match` — writes the match unconditionally. -/
inductive ClaimPhase where
  | selecting
  | claiming
  | done
  | resumed
deriving DecidableEq, Repr

/-- Shared state of two search processes racing to claim the same pair of
queue entries A and B: the two status columns, the number of match
records created for the pair, and each process's phase. -/
structure ClaimRace where
  statusA : MatchmakingStatus
  statusB : MatchmakingStatus
  matchCount : Nat
  proc1 : ClaimPhase
  proc2 : ClaimPhase
deriving DecidableEq, Repr

/-- One interleaving step of the two racing search processes, as the code
performs it.  `select` is the read side: `_continuous_matchmaking_search`
checks the process's own entry is still `SEARCHING` and the candidate
query of `_find_match` filters the opponent on
`status == MatchmakingStatus.SEARCHING`.  `observe` is the losing read:
when either entry is no longer `SEARCHING` the query returns no
candidate and the process resumes its loop.  `commit` is the write side:
`_create_match` sets both entries to `MATCHED`, inserts the
`MatchmakingHistory` row and commits, without re-reading or re-verifying
either status. -/
inductive claimStep : ClaimRace → ClaimRace → Prop where
  | select1 (s : ClaimRace) :
      s.proc1 = ClaimPhase.selecting →
      s.statusA = MatchmakingStatus.searching →
      s.statusB = MatchmakingStatus.searching →
      claimStep s { s with proc1 := ClaimPhase.claiming }
  | observe1 (s : ClaimRace) :
      s.proc1 = ClaimPhase.selecting →
      (s.statusA ≠ MatchmakingStatus.searching ∨
       s.statusB ≠ MatchmakingStatus.searching) →
      claimStep s { s with proc1 := ClaimPhase.resumed }
  | commit1 (s : ClaimRace) :
      s.proc1 = ClaimPhase.claiming →
      claimStep s { s with
        statusA := MatchmakingStatus.matched
        statusB := MatchmakingStatus.matched
        matchCount := s.matchCount + 1
        proc1 := ClaimPhase.done }
  | select2 (s : ClaimRace) :
      s.proc2 = ClaimPhase.selecting →
      s.statusA = MatchmakingStatus.searching →
      s.statusB = MatchmakingStatus.searching →
      claimStep s { s with proc2 := ClaimPhase.claiming }
  | observe2 (s : ClaimRace) :
      s.proc2 = ClaimPhase.selecting →
      (s.statusA ≠ MatchmakingStatus.searching ∨
       s.statusB ≠ MatchmakingStatus.searching) →
      claimStep s { s with proc2 := ClaimPhase.resumed }
  | commit2 (s : ClaimRace) :
      s.proc2 = ClaimPhase.claiming →
      claimStep s { s with
        statusA := MatchmakingStatus.matched
        statusB := MatchmakingStatus.matched
        matchCount := s.matchCount + 1
        proc2 := ClaimPhase.done }

/-- Initial state of the race: both entries `SEARCHING`, no match record,
both processes about to run their candidate query. -/
def claimRaceInit : ClaimRace :=
  { statusA := MatchmakingStatus.searching
    statusB := MatchmakingStatus.searching
    matchCount := 0
    proc1 := ClaimPhase.selecting
    proc2 := ClaimPhase.selecting }

/-- Reachability under arbitrary interleaving of the two processes. -/
def claimReachable : ClaimRace → ClaimRace → Prop :=
  Relation.ReflTransGen claimStep

/-! Concrete fixtures used by witnesses and counterexamples. -/

/-- A default preference set: grid size 3, max rating difference 200,
ranked queue, 120 seconds max wait (the dataclass defaults). -/
def prefs0 : MatchmakingPreferences :=
  { grid_sizes := [3]
    max_rating_difference := 200
    preferred_queue_type := "ranked"
    max_wait_time := 120 }

/-- A queue entry of player 7 with status `SEARCHING`. -/
def joinEntry0 : PlayerQueue :=
  { id := 1
    player_id := 7
    preferences := prefs0
    skill_rating := 1200
    queue_type := "ranked"
    status := MatchmakingStatus.searching
    joined_at := 0
    search_expanded_at := none
    matched_at := none
    initial_rating_range := 200
    current_rating_range := 200
    max_wait_time := 120 }

/-- A queue table containing only `joinEntry0`. -/
def joinQueue0 : List PlayerQueue := [joinEntry0]

/-- A searching entry used as the querying side of the candidate fetch. -/
def qSearcher : PlayerQueue :=
  { joinEntry0 with id := 1, player_id := 10, skill_rating := 1200 }

/-- A candidate at rating distance 50 that joined at time 100. -/
def eLate : PlayerQueue :=
  { joinEntry0 with
    id := 2
    player_id := 20
    skill_rating := 1250
    joined_at := 100 }

/-- A candidate at rating distance 50 that joined at time 0. -/
def eEarly : PlayerQueue :=
  { joinEntry0 with
    id := 3
    player_id := 30
    skill_rating := 1150
    joined_at := 0 }

/-- A queue table with the searcher and the two tied candidates. -/
def queueTie : List PlayerQueue := [qSearcher, eLate, eEarly]

/-- The ordering the specification asks of the candidate list: ascending
absolute rating distance, ties broken by earliest join time.  Stated from
the specification's words, to be compared with what the code's query
guarantees. -/
def orderedByDistanceThenJoinTime (q : PlayerQueue)
    (l : List PlayerQueue) : Prop :=
  l.Chain' (fun a b =>
    ratingDistance q a < ratingDistance q b ∨
    (ratingDistance q a = ratingDistance q b ∧ a.joined_at ≤ b.joined_at))

/-- An entry that qualifies for a radius expansion at clock time 40. -/
def expandEntry0 : PlayerQueue :=
  { joinEntry0 with id := 4, player_id := 9 }

/-- A completed 4x4 game with no winner. -/
def game8 : Game :=
  { id := 1, status := "completed", winner_id := none, grid_size := 4 }

/-- Nine moves recorded for `game8`: fewer than the 16 cells of its 4x4
board, so the board is not full. -/
def moves8 : List Move :=
  [ { id := 1, game_id := 1, player_id := 10 },
    { id := 2, game_id := 1, player_id := 11 },
    { id := 3, game_id := 1, player_id := 10 },
    { id := 4, game_id := 1, player_id := 11 },
    { id := 5, game_id := 1, player_id := 10 },
    { id := 6, game_id := 1, player_id := 11 },
    { id := 7, game_id := 1, player_id := 10 },
    { id := 8, game_id := 1, player_id := 11 },
    { id := 9, game_id := 1, player_id := 10 } ]

/-- The database holding `game8` and its nine moves. -/
def db8 : ConsistencyDB :=
  { players := [], games := [game8], moves := moves8, game_players := [] }

/-! Theorems settling the claims. -/

/-- C4: if a player already has a queue entry with status Searching,
`join_matchmaking` returns that same existing entry and leaves the queue
table unchanged (no new row), so the count of Searching entries of that
player — in particular the at-most-one invariant — is preserved. -/
theorem join_matchmaking_idempotent (queue : List PlayerQueue)
    (player_id : Int) (prefs : MatchmakingPreferences)
    (rating now newId : Int) (e : PlayerQueue)
    (h : queue.find? (isSearchingEntryOf player_id) = some e) :
    join_matchmaking queue player_id prefs rating now newId = (e, queue) ∧
    (join_matchmaking queue player_id prefs rating now newId).2.countP
        (isSearchingEntryOf player_id) =
      queue.countP (isSearchingEntryOf player_id) := by
  simp [join_matchmaking, h]

/-- Witness for C4: a concrete queue already holding a Searching entry of
player 7. -/
theorem join_matchmaking_idempotent_witness :
    joinQueue0.find? (isSearchingEntryOf 7) = some joinEntry0 ∧
    (join_matchmaking joinQueue0 7 prefs0 1200 5 2 = (joinEntry0, joinQueue0) ∧
     (join_matchmaking joinQueue0 7 prefs0 1200 5 2).2.countP
         (isSearchingEntryOf 7) =
       joinQueue0.countP (isSearchingEntryOf 7)) :=
  ⟨by decide,
   join_matchmaking_idempotent joinQueue0 7 prefs0 1200 5 2 joinEntry0
     (by decide)⟩

/-- C7: whenever `_maybe_expand_search_criteria` changes the entry, the
current rating range strictly grows by at most the fixed step 50, stays
at most 3 times the initial rating range, the expansion time is recorded,
any previously recorded expansion lies at least 30 seconds in the past,
and the entry has waited at least 30 seconds. -/
theorem expand_search_criteria_spec (now : Int) (q : PlayerQueue)
    (h : maybe_expand_search_criteria now q ≠ q) :
    q.current_rating_range <
        (maybe_expand_search_criteria now q).current_rating_range ∧
    (maybe_expand_search_criteria now q).current_rating_range ≤
        q.current_rating_range + 50 ∧
    (maybe_expand_search_criteria now q).current_rating_range ≤
        3 * q.initial_rating_range ∧
    (maybe_expand_search_criteria now q).search_expanded_at = some now ∧
    (∀ t, q.search_expanded_at = some t → 30 ≤ now - t) ∧
    30 ≤ now - q.joined_at := by
  by_cases h1 : 30 ≤ now - q.joined_at ∧
      q.current_rating_range < q.initial_rating_range * 3
  · rcases hexp : q.search_expanded_at with _ | t
    · have hres : maybe_expand_search_criteria now q =
          { q with
              current_rating_range :=
                min (q.current_rating_range + 50) (q.initial_rating_range * 3)
              search_expanded_at := some now } := by
        simp only [maybe_expand_search_criteria, hexp]
        rw [if_pos h1]
        simp
      rw [hres]
      refine ⟨lt_min (by omega) h1.2, min_le_left _ _,
        le_trans (min_le_right _ _) (by omega), rfl, ?_, h1.1⟩
      intro t ht
      exact absurd ht (by simp)
    · by_cases h2 : 30 ≤ now - t
      · have hres : maybe_expand_search_criteria now q =
            { q with
                current_rating_range :=
                  min (q.current_rating_range + 50) (q.initial_rating_range * 3)
                search_expanded_at := some now } := by
          simp only [maybe_expand_search_criteria, hexp]
          rw [if_pos h1]
          simp [h2]
        rw [hres]
        refine ⟨lt_min (by omega) h1.2, min_le_left _ _,
          le_trans (min_le_right _ _) (by omega), rfl, ?_, h1.1⟩
        intro s hs
        cases hs
        exact h2
      · exfalso
        apply h
        simp only [maybe_expand_search_criteria, hexp]
        rw [if_pos h1]
        simp [h2]
  · exfalso
    apply h
    simp only [maybe_expand_search_criteria]
    rw [if_neg h1]

/-- Witness for C7: the entry `expandEntry0` at clock time 40 qualifies
for an expansion and the expansion obeys all the bounds. -/
theorem expand_search_criteria_spec_witness :
    maybe_expand_search_criteria 40 expandEntry0 ≠ expandEntry0 ∧
    (expandEntry0.current_rating_range <
        (maybe_expand_search_criteria 40 expandEntry0).current_rating_range ∧
     (maybe_expand_search_criteria 40 expandEntry0).current_rating_range ≤
        expandEntry0.current_rating_range + 50 ∧
     (maybe_expand_search_criteria 40 expandEntry0).current_rating_range ≤
        3 * expandEntry0.initial_rating_range ∧
     (maybe_expand_search_criteria 40 expandEntry0).search_expanded_at =
        some 40 ∧
     (∀ t, expandEntry0.search_expanded_at = some t → 30 ≤ 40 - t) ∧
     (30 : Int) ≤ 40 - expandEntry0.joined_at) :=
  ⟨by decide, expand_search_criteria_spec 40 expandEntry0 (by decide)⟩

/-- C8: the invalid-game-state check flags completed winnerless games
only when their move count is below the hard-coded constant 9, not below
the game's own cell count.  `game8` is completed with no winner and its
4x4 board is not full (9 of 16 cells used), yet the check reports no
issue for it. -/
theorem check_invalid_game_states_hardcodes_nine :
    game8.status = "completed" ∧ game8.winner_id = none ∧
    moveCount db8.moves game8.id < game8.grid_size * game8.grid_size ∧
    (check_invalid_game_states db8).2 = [] := by
  refine ⟨rfl, rfl, by decide, ?_⟩
  rfl

/-- C9: `validate_data_integrity` reads the database and returns only the
four lists of violation descriptors; the database state it passes back is
exactly the one it was given — none of the four checks mutates any
table. -/
theorem validate_data_integrity_no_mutation (db : ConsistencyDB) :
    (validate_data_integrity db).1 = db := rfl

/-- C10: whenever the smaller of the two max-rating-difference values is
positive, the compatibility computation runs no division by zero and
returns a value (the `ZeroDivisionError` branch, modelled by `none`, is
unreachable). -/
theorem compatibility_total (p1 p2 : MatchmakingPreferences)
    (r1 r2 : Int)
    (h : 0 < min p1.max_rating_difference p2.max_rating_difference) :
    (calculate_match_compatibility p1 p2 r1 r2).isSome = true := by
  unfold calculate_match_compatibility
  by_cases h1 : |r1 - r2| ≤ min p1.max_rating_difference p2.max_rating_difference
  · rw [if_pos h1, if_neg (by omega)]
    rfl
  · rw [if_neg h1]
    rfl

/-- Witness for C10: two concrete preference sets with positive
max-rating-difference values. -/
theorem compatibility_total_witness :
    (0 : Int) < min prefs0.max_rating_difference prefs0.max_rating_difference ∧
    (calculate_match_compatibility prefs0 prefs0 1200 1210).isSome = true :=
  ⟨by decide, compatibility_total prefs0 prefs0 1200 1210 (by decide)⟩

/-- C3: for valid preference pairs (positive smaller
max-rating-difference) the compatibility score is defined and lies in
[0, 1], and the computation is symmetric under swapping the two
players. -/
theorem compatibility_score_range_and_symm
    (p1 p2 : MatchmakingPreferences) (r1 r2 : Int)
    (h : 0 < min p1.max_rating_difference p2.max_rating_difference) :
    (∃ s, calculate_match_compatibility p1 p2 r1 r2 = some s ∧
      0 ≤ s ∧ s ≤ 1) ∧
    calculate_match_compatibility p1 p2 r1 r2 =
      calculate_match_compatibility p2 p1 r2 r1 := by
  constructor
  · unfold calculate_match_compatibility
    by_cases h1 : |r1 - r2| ≤
        min p1.max_rating_difference p2.max_rating_difference
    · rw [if_pos h1, if_neg (by omega)]
      refine ⟨_, rfl, ?_, ?_⟩
      all_goals
        have hd0 : (0 : ℚ) ≤ ((|r1 - r2| : Int) : ℚ) := by
          exact_mod_cast abs_nonneg (r1 - r2)
        have hm0 : (0 : ℚ) <
            ((min p1.max_rating_difference p2.max_rating_difference : Int) : ℚ) := by
          exact_mod_cast h
        have hdm : ((|r1 - r2| : Int) : ℚ) ≤
            ((min p1.max_rating_difference p2.max_rating_difference : Int) : ℚ) := by
          exact_mod_cast h1
        have hx0 : (0 : ℚ) ≤ ((|r1 - r2| : Int) : ℚ) /
            ((min p1.max_rating_difference p2.max_rating_difference : Int) : ℚ) :=
          div_nonneg hd0 hm0.le
        have hx1 : ((|r1 - r2| : Int) : ℚ) /
            ((min p1.max_rating_difference p2.max_rating_difference : Int) : ℚ) ≤ 1 :=
          (div_le_one hm0).mpr hdm
        split_ifs <;> linarith
    · rw [if_neg h1]
      refine ⟨_, rfl, ?_, ?_⟩
      all_goals split_ifs <;> norm_num
  · have hgrid := hasCommonGridSizes_comm p1.grid_sizes p2.grid_sizes
    have habs : |r1 - r2| = |r2 - r1| := abs_sub_comm r1 r2
    have hmin : min p1.max_rating_difference p2.max_rating_difference =
        min p2.max_rating_difference p1.max_rating_difference := min_comm _ _
    have hq : (p1.preferred_queue_type = p2.preferred_queue_type) ↔
        (p2.preferred_queue_type = p1.preferred_queue_type) := eq_comm
    have hw : |p1.max_wait_time - p2.max_wait_time| =
        |p2.max_wait_time - p1.max_wait_time| := abs_sub_comm _ _
    simp only [calculate_match_compatibility, hgrid, habs, hmin, hq, hw]

/-- Witness for C3: two concrete valid preference sets. -/
theorem compatibility_score_range_and_symm_witness :
    (0 : Int) < min prefs0.max_rating_difference prefs0.max_rating_difference ∧
    ((∃ s, calculate_match_compatibility prefs0 prefs0 1200 1210 = some s ∧
        0 ≤ s ∧ s ≤ 1) ∧
     calculate_match_compatibility prefs0 prefs0 1200 1210 =
       calculate_match_compatibility prefs0 prefs0 1210 1200) :=
  ⟨by decide, compatibility_score_range_and_symm prefs0 prefs0 1200 1210
    (by decide)⟩

/-- The tied candidate list `[eLate, eEarly]` is a possible result of the
candidate query on `queueTie`: both rows qualify, their order key values
are equal, and the query fixes nothing beyond the order key. -/
lemma findMatchCandidates_tie_example :
    findMatchCandidates queueTie qSearcher [eLate, eEarly] := by
  refine ⟨[eLate, eEarly], ?_, ?_, rfl⟩
  · have hfilter : queueTie.filter (isCandidateFor qSearcher) =
        [eLate, eEarly] := by decide
    rw [hfilter]
  · exact List.chain'_pair.mpr (by decide)

/-- C6 counterexample: the candidate query does not order ties by join
time.  On `queueTie` the result `[eLate, eEarly]` satisfies the query
semantics although `eEarly` joined strictly earlier than the equally
distant `eLate` listed before it. -/
theorem find_match_candidates_tiebreak_cex :
    findMatchCandidates queueTie qSearcher [eLate, eEarly] ∧
    ratingDistance qSearcher eLate = ratingDistance qSearcher eEarly ∧
    eEarly.joined_at < eLate.joined_at ∧
    ¬ orderedByDistanceThenJoinTime qSearcher [eLate, eEarly] := by
  refine ⟨findMatchCandidates_tie_example, by decide, by decide, ?_⟩
  rw [orderedByDistanceThenJoinTime, List.chain'_pair]
  decide

/-- C6 (amended): every possible result of the candidate query has at
most 10 entries, each a Searching entry of the searcher's queue type
within the current rating range drawn from the queue table, and is
ordered by absolute rating distance ascending; no tie-break among equal
distances is guaranteed. -/
theorem find_match_candidates_spec (queue : List PlayerQueue)
    (q : PlayerQueue) (res : List PlayerQueue)
    (h : findMatchCandidates queue q res) :
    res.length ≤ 10 ∧
    (∀ e ∈ res, isCandidateFor q e = true ∧ e ∈ queue) ∧
    res.Chain' (fun a b => ratingDistance q a ≤ ratingDistance q b) := by
  obtain ⟨sorted, hperm, hchain, hres⟩ := h
  subst hres
  refine ⟨?_, ?_, hchain.take 10⟩
  · rw [List.length_take]
    exact min_le_left _ _
  · intro e he
    have he2 : e ∈ sorted := List.take_subset 10 sorted he
    have he3 : e ∈ queue.filter (isCandidateFor q) := hperm.mem_iff.mp he2
    rw [List.mem_filter] at he3
    exact ⟨he3.2, he3.1⟩

/-- Witness for C6 (amended): the concrete query result
`[eLate, eEarly]` on `queueTie` satisfies all three properties. -/
theorem find_match_candidates_spec_witness :
    findMatchCandidates queueTie qSearcher [eLate, eEarly] ∧
    (([eLate, eEarly] : List PlayerQueue).length ≤ 10 ∧
     (∀ e ∈ ([eLate, eEarly] : List PlayerQueue),
        isCandidateFor qSearcher e = true ∧ e ∈ queueTie) ∧
     ([eLate, eEarly] : List PlayerQueue).Chain'
       (fun a b => ratingDistance qSearcher a ≤ ratingDistance qSearcher b)) :=
  ⟨findMatchCandidates_tie_example,
   find_match_candidates_spec queueTie qSearcher [eLate, eEarly]
     findMatchCandidates_tie_example⟩

/-- C1: the claim protocol of the code is not atomic.  Starting from two
Searching entries and two racing search processes, the interleaving in
which both processes first pass the Searching check and then both run
`_create_match` is reachable, and it commits two match records for the
same pair — the code has no re-read, lock or status re-verification that
would make one of the transactions fail. -/
theorem double_claim_reachable :
    ∃ s : ClaimRace, claimReachable claimRaceInit s ∧
      s.matchCount = 2 ∧ s.proc1 = ClaimPhase.done ∧
      s.proc2 = ClaimPhase.done := by
  refine ⟨{ statusA := MatchmakingStatus.matched
            statusB := MatchmakingStatus.matched
            matchCount := 2
            proc1 := ClaimPhase.done
            proc2 := ClaimPhase.done }, ?_, rfl, rfl, rfl⟩
  apply Relation.ReflTransGen.head
    (claimStep.select1 claimRaceInit rfl rfl rfl)
  apply Relation.ReflTransGen.head (claimStep.select2 _ rfl rfl rfl)
  apply Relation.ReflTransGen.head (claimStep.commit1 _ rfl)
  apply Relation.ReflTransGen.head (claimStep.commit2 _ rfl)
  exact Relation.ReflTransGen.refl

lemma expected_score_pos (a b : Int) : 0 < expected_score a b := by
  unfold expected_score
  have h10 : (0:ℝ) < (10:ℝ) ^ (((b - a : Int) : ℝ) / 400) :=
    Real.rpow_pos_of_pos (by norm_num) _
  exact div_pos one_pos (by linarith)

lemma expected_score_lt_one (a b : Int) : expected_score a b < 1 := by
  unfold expected_score
  have h10 : (0:ℝ) < (10:ℝ) ^ (((b - a : Int) : ℝ) / 400) :=
    Real.rpow_pos_of_pos (by norm_num) _
  rw [div_lt_one (by linarith)]
  linarith

lemma clamp_le (x : ℝ) : max (-(50:ℝ)) (min 50 x) ≤ 50 :=
  max_le (by norm_num) (min_le_left _ _)

lemma clamp_ge (x : ℝ) : -(50:ℝ) ≤ max (-(50:ℝ)) (min 50 x) :=
  le_max_left _ _

lemma pyint_intCast (z : Int) : pyint ((z : ℝ)) = z := by
  unfold pyint
  split_ifs <;> simp

/-- The pair computed by `calculate_rating_change`, with the let bindings
of the definition spelled out. -/
lemma calculate_rating_change_def
    (winner_rating loser_rating winner_games loser_games grid_size : Int) :
    calculate_rating_change winner_rating loser_rating winner_games
        loser_games grid_size =
      (max 100 (pyint ((winner_rating : ℝ) +
         max (-(50:ℝ)) (min 50 ((get_k_factor winner_games : ℝ) *
           ((get_grid_size_modifier grid_size : ℚ) : ℝ) *
           (1 - expected_score winner_rating loser_rating))))),
       max 100 (pyint ((loser_rating : ℝ) +
         max (-(50:ℝ)) (min 50 ((get_k_factor loser_games : ℝ) *
           ((get_grid_size_modifier grid_size : ℚ) : ℝ) *
           (0 - (1 - expected_score winner_rating loser_rating))))))) := rfl

/-- For a rating of at least 100 and a clamped change, flooring the
truncated new rating at 100 keeps it at least 100 and moves it by at most
50 points. -/
lemma new_rating_bounds (r : Int) (hr : 100 ≤ r) (c : ℝ)
    (hc1 : -(50:ℝ) ≤ c) (hc2 : c ≤ 50) :
    |max 100 (pyint ((r : ℝ) + c)) - r| ≤ 50 ∧
    100 ≤ max 100 (pyint ((r : ℝ) + c)) := by
  have hr' : (100:ℝ) ≤ (r : ℝ) := by exact_mod_cast hr
  have h0 : (0:ℝ) ≤ (r : ℝ) + c := by linarith
  rw [pyint, if_pos h0]
  have hfl : ⌊(r : ℝ) + c⌋ = ⌊c⌋ + r := by
    rw [add_comm]
    exact Int.floor_add_int c r
  have hcl : -50 ≤ ⌊c⌋ := by
    have h1 : ((-50 : Int) : ℝ) ≤ c := by push_cast; linarith
    exact Int.le_floor.mpr h1
  have hcu : ⌊c⌋ ≤ 50 := by
    have h1 : c < ((51 : Int) : ℝ) := by push_cast; linarith
    have h2 : ⌊c⌋ < 51 := Int.floor_lt.mpr h1
    omega
  rw [hfl]
  by_cases hcase : (100 : Int) ≤ ⌊c⌋ + r
  · rw [max_eq_right hcase]
    refine ⟨?_, hcase⟩
    rw [abs_le]
    omega
  · rw [max_eq_left (by omega)]
    refine ⟨?_, le_refl _⟩
    rw [abs_le]
    omega

/-- The deviation written back by `_update_rating_record` is the decayed
deviation floored at 50. -/
lemma update_rating_record_deviation (rating : PlayerRating)
    (new_overall_rating grid_size : Int) (won : Bool) (now : Int) :
    (update_rating_record rating new_overall_rating grid_size won
        now).rating_deviation =
      max 50 (rating.rating_deviation * (99/100)) := by
  simp only [update_rating_record]
  split_ifs <;> rfl

/-- C2 (amended): for a rating update of a concluded match where both
input ratings are at least 100 (any non-negative game counts, any grid
size), each player's rating change has magnitude at most 50, each
resulting rating is at least 100, and the resulting rating deviation is
at least 50.  For input ratings below 100 the floor at 100 can move a
rating by more than 50 points. -/
theorem rating_update_bounds
    (winner_rating loser_rating winner_games loser_games grid_size : Int)
    (rating : PlayerRating) (new_overall_rating gs : Int) (won : Bool)
    (now : Int)
    (hw : 100 ≤ winner_rating) (hl : 100 ≤ loser_rating)
    (hwg : 0 ≤ winner_games) (hlg : 0 ≤ loser_games) :
    |(calculate_rating_change winner_rating loser_rating winner_games
        loser_games grid_size).1 - winner_rating| ≤ 50 ∧
    |(calculate_rating_change winner_rating loser_rating winner_games
        loser_games grid_size).2 - loser_rating| ≤ 50 ∧
    100 ≤ (calculate_rating_change winner_rating loser_rating winner_games
        loser_games grid_size).1 ∧
    100 ≤ (calculate_rating_change winner_rating loser_rating winner_games
        loser_games grid_size).2 ∧
    50 ≤ (update_rating_record rating new_overall_rating gs won
        now).rating_deviation := by
  rw [calculate_rating_change_def]
  have hwb := new_rating_bounds winner_rating hw
    (max (-(50:ℝ)) (min 50 ((get_k_factor winner_games : ℝ) *
      ((get_grid_size_modifier grid_size : ℚ) : ℝ) *
      (1 - expected_score winner_rating loser_rating))))
    (clamp_ge _) (clamp_le _)
  have hlb := new_rating_bounds loser_rating hl
    (max (-(50:ℝ)) (min 50 ((get_k_factor loser_games : ℝ) *
      ((get_grid_size_modifier grid_size : ℚ) : ℝ) *
      (0 - (1 - expected_score winner_rating loser_rating)))))
    (clamp_ge _) (clamp_le _)
  refine ⟨hwb.1, hlb.1, hwb.2, hlb.2, ?_⟩
  rw [update_rating_record_deviation]
  exact le_max_left _ _

lemma expected_score_self (a : Int) : expected_score a a = 1/2 := by
  unfold expected_score
  have h1 : (((a - a : Int)) : ℝ) / 400 = 0 := by push_cast; ring
  rw [h1, Real.rpow_zero]
  norm_num

/-- Evaluation of the rating change for two players rated 20 with no
games on a 3x3 grid: the expected score is exactly 1/2, the winner's raw
change is +16, but both resulting ratings are floored up to 100. -/
lemma calc_rating_change_20_eval :
    calculate_rating_change 20 20 0 0 3 = (100, 100) := by
  rw [calculate_rating_change_def, expected_score_self]
  have hk : ((get_k_factor 0 : Int) : ℝ) = 40 := by norm_num [get_k_factor]
  have hmod : ((get_grid_size_modifier 3 : ℚ) : ℝ) = 4/5 := by
    norm_num [get_grid_size_modifier]
  rw [hk, hmod]
  have hw : (40:ℝ) * (4/5) * (1 - 1/2) = 16 := by norm_num
  have hlo : (40:ℝ) * (4/5) * (0 - (1 - 1/2)) = -16 := by norm_num
  rw [hw, hlo]
  have hclw : max (-(50:ℝ)) (min 50 16) = 16 := by
    rw [min_eq_right (by norm_num), max_eq_right (by norm_num)]
  have hcll : max (-(50:ℝ)) (min 50 (-16)) = -16 := by
    rw [min_eq_right (by norm_num), max_eq_right (by norm_num)]
  rw [hclw, hcll]
  have h36 : (((20 : Int) : ℝ) + 16) = ((36 : Int) : ℝ) := by push_cast; norm_num
  have h4 : (((20 : Int) : ℝ) + -16) = ((4 : Int) : ℝ) := by push_cast; norm_num
  rw [h36, h4, pyint_intCast, pyint_intCast]
  decide

/-- C2 counterexample: for input ratings 20 (allowed by the claim's "any
integer ratings") the winner's rating moves from 20 to 100, a change of
80 points, exceeding the claimed bound of 50. -/
theorem rating_delta_bound_cex :
    ¬ (|(calculate_rating_change 20 20 0 0 3).1 - 20| ≤ 50) := by
  rw [calc_rating_change_20_eval]
  decide

/-- Witness for C2 (amended): both players rated 1200 with 0 games on a
3x3 grid. -/
theorem rating_update_bounds_witness :
    (100 : Int) ≤ 1200 ∧
    (|(calculate_rating_change 1200 1200 0 0 3).1 - 1200| ≤ 50 ∧
     |(calculate_rating_change 1200 1200 0 0 3).2 - 1200| ≤ 50 ∧
     100 ≤ (calculate_rating_change 1200 1200 0 0 3).1 ∧
     100 ≤ (calculate_rating_change 1200 1200 0 0 3).2 ∧
     50 ≤ (update_rating_record
        { player_id := 7
          overall_rating := 1200
          grid_3x3_rating := 1200
          grid_4x4_rating := 1200
          grid_5x5_rating := 1200
          games_played := 0
          rating_deviation := 350
          last_game_at := none
          peak_rating := 1200
          peak_rating_at := none
          current_win_streak := 0
          current_loss_streak := 0
          best_win_streak := 0 } 1216 3 true 9).rating_deviation) :=
  ⟨by norm_num,
   rating_update_bounds 1200 1200 0 0 3 _ 1216 3 true 9
     (by norm_num) (by norm_num) (by norm_num) (by norm_num)⟩

lemma expected_1200_1300_eq :
    expected_score 1200 1300 = 1 / (1 + (10:ℝ) ^ ((1:ℝ)/4)) := by
  unfold expected_score
  norm_num

lemma rpow_quarter_pow : ((10:ℝ) ^ ((1:ℝ)/4)) ^ (4:ℕ) = 10 := by
  rw [← Real.rpow_natCast ((10:ℝ) ^ ((1:ℝ)/4)) 4,
    ← Real.rpow_mul (by norm_num : (0:ℝ) ≤ 10)]
  norm_num

lemma rpow_quarter_lower : (63/37 : ℝ) < (10:ℝ) ^ ((1:ℝ)/4) := by
  by_contra hcon
  push_neg at hcon
  have ht0 : (0:ℝ) < (10:ℝ) ^ ((1:ℝ)/4) :=
    Real.rpow_pos_of_pos (by norm_num) _
  have h2 : ((10:ℝ) ^ ((1:ℝ)/4)) ^ (4:ℕ) ≤ (63/37 : ℝ) ^ (4:ℕ) :=
    pow_le_pow_left ht0.le hcon 4
  rw [rpow_quarter_pow] at h2
  norm_num at h2

lemma rpow_quarter_upper : (10:ℝ) ^ ((1:ℝ)/4) < (13/7 : ℝ) := by
  by_contra hcon
  push_neg at hcon
  have h2 : (13/7 : ℝ) ^ (4:ℕ) ≤ ((10:ℝ) ^ ((1:ℝ)/4)) ^ (4:ℕ) :=
    pow_le_pow_left (by norm_num) hcon 4
  rw [rpow_quarter_pow] at h2
  norm_num at h2

lemma expected_1200_1300_bounds :
    (7/20 : ℝ) < expected_score 1200 1300 ∧
    expected_score 1200 1300 < 37/100 := by
  rw [expected_1200_1300_eq]
  have hl := rpow_quarter_lower
  have hu := rpow_quarter_upper
  have hpos : (0:ℝ) < 1 + (10:ℝ) ^ ((1:ℝ)/4) := by linarith
  constructor
  · rw [lt_div_iff hpos]
    linarith
  · rw [div_lt_iff hpos]
    linarith

/-- Evaluation of the rating change for winner 1200 (15 games) against
loser 1300 (15 games) on a 3x3 grid: the winner gains 20 points and the
loser drops 21 (truncation is asymmetric). -/
lemma calc_rating_change_1200_1300_eval :
    calculate_rating_change 1200 1300 15 15 3 = (1220, 1279) := by
  rw [calculate_rating_change_def]
  have h1 := expected_1200_1300_bounds.1
  have h2 := expected_1200_1300_bounds.2
  have hk : ((get_k_factor 15 : Int) : ℝ) = 40 := by norm_num [get_k_factor]
  have hmod : ((get_grid_size_modifier 3 : ℚ) : ℝ) = 4/5 := by
    norm_num [get_grid_size_modifier]
  rw [hk, hmod]
  have hw1 : (20:ℝ) < 40 * (4/5) * (1 - expected_score 1200 1300) := by
    linarith
  have hw2 : (40:ℝ) * (4/5) * (1 - expected_score 1200 1300) < 21 := by
    linarith
  have hclw : max (-(50:ℝ))
      (min 50 ((40:ℝ) * (4/5) * (1 - expected_score 1200 1300))) =
      (40:ℝ) * (4/5) * (1 - expected_score 1200 1300) := by
    rw [min_eq_right (by linarith), max_eq_right (by linarith)]
  have hcll : max (-(50:ℝ))
      (min 50 ((40:ℝ) * (4/5) * (0 - (1 - expected_score 1200 1300)))) =
      (40:ℝ) * (4/5) * (0 - (1 - expected_score 1200 1300)) := by
    rw [min_eq_right (by linarith), max_eq_right (by linarith)]
  rw [hclw, hcll]
  have hfw : pyint (((1200 : Int) : ℝ) +
      (40:ℝ) * (4/5) * (1 - expected_score 1200 1300)) = 1220 := by
    rw [pyint, if_pos (by linarith)]
    rw [Int.floor_eq_iff]
    constructor
    · push_cast
      linarith
    · push_cast
      linarith
  have hfl : pyint (((1300 : Int) : ℝ) +
      (40:ℝ) * (4/5) * (0 - (1 - expected_score 1200 1300))) = 1279 := by
    rw [pyint, if_pos (by linarith)]
    rw [Int.floor_eq_iff]
    constructor
    · push_cast
      linarith
    · push_cast
      linarith
  rw [hfw, hfl]
  decide

/-- C5 counterexample: the spec's worked example is wrong about the code:
for winner 1200 (15 games), loser 1300 (15 games), board size 3, the
code returns (1220, 1279), not ratings of about 1224 and 1276. -/
theorem rating_change_example_cex :
    calculate_rating_change 1200 1300 15 15 3 ≠ (1224, 1276) := by
  rw [calc_rating_change_1200_1300_eval]
  decide

/-- C5 (amended): for winner 1200 (15 games), loser 1300 (15 games),
board size 3, the winner's expected score lies between 0.35 and 0.37
(about 0.36, not 0.24); with K=40 and modifier 0.8 the winner's rating
becomes 1220 and the loser's 1279 (the deltas +20/−21 are not exactly
symmetric because `int()` truncates toward zero). -/
theorem rating_change_example :
    (7/20 : ℝ) < expected_score 1200 1300 ∧
    expected_score 1200 1300 < 37/100 ∧
    calculate_rating_change 1200 1300 15 15 3 = (1220, 1279) :=
  ⟨expected_1200_1300_bounds.1, expected_1200_1300_bounds.2,
    calc_rating_change_1200_1300_eval⟩

end TicTacToe
